import Mathlib

/-!
Shallow embedding of the rideshare simulation sources
(location.py, rider.py, driver.py, dispatcher.py, event.py).

Python integers are embedded as Nat or Int; Python exceptions are embedded
as an explicit error type threaded through Except; in-place mutation of an
object is embedded as returning the updated record.  The monitor is an
external collaborator and its notify calls carry no state, so they are
omitted from the embedding.
-/

/-- Python exceptions that the embedded code can raise. -/
inductive PyErr where
  | attributeError
  | zeroDivisionError
  | unboundLocalError
  | typeError
  | indexError
deriving DecidableEq, Repr

/-- location.py, class Location: integer row and column. -/
structure Location where
  row : Int
  col : Int
deriving DecidableEq, Repr

/-- location.py, manhattan_distance: abs row difference plus abs column
difference (Python abs of an int difference, hence a Nat). -/
def manhattan_distance (origin destination : Location) : Nat :=
  (origin.row - destination.row).natAbs + (origin.col - destination.col).natAbs

/-- location.py, Location.__str__: the body is only a docstring and pass,
so the Python function returns None and never produces the "row,col" text. -/
def location_str (_loc : Location) : Option String :=
  none

/-- location.py, deserialize_location: its first executed statement is
Location() with no arguments, while Location.__init__ requires row and
column, so the call raises TypeError before any parsing happens (the later
lines also reference the undefined name helper_string, swap row and col,
and return None). -/
def deserialize_location (_location_str : String) : Except PyErr Location :=
  Except.error PyErr.typeError

/-- rider.py status constants WAITING, CANCELLED, SATISFIED. -/
inductive RStatus where
  | waiting
  | cancelled
  | satisfied
deriving DecidableEq, Repr

/-- rider.py, class Rider. -/
structure Rider where
  status : RStatus
  id : String
  origin : Location
  destination : Location
  patience : Nat
  timestamp : Nat
deriving DecidableEq, Repr

/-- rider.py, Rider.__eq__: equality solely by timestamp. -/
def rider_eq (a b : Rider) : Bool :=
  a.timestamp == b.timestamp

/-- rider.py, Rider.__lt__: strict order solely by timestamp. -/
def rider_lt (a b : Rider) : Bool :=
  decide (a.timestamp < b.timestamp)

/-- rider.py, Rider.__ge__: its body returns a strict greater-than on
timestamps. -/
def rider_ge (a b : Rider) : Bool :=
  decide (b.timestamp < a.timestamp)

/-- event.py, class Event: the only attribute is the timestamp. -/
structure PyEvent where
  timestamp : Nat
deriving DecidableEq, Repr

/-- event.py, Event.__eq__: two events are equal iff same timestamp. -/
def event_eq (a b : PyEvent) : Bool :=
  a.timestamp == b.timestamp

/-- event.py, Event.__ne__: negation of __eq__. -/
def event_ne (a b : PyEvent) : Bool :=
  !(event_eq a b)

/-- event.py, Event.__lt__: timestamp comparison. -/
def event_lt (a b : PyEvent) : Bool :=
  decide (a.timestamp < b.timestamp)

/-- event.py, Event.__le__: timestamp comparison. -/
def event_le (a b : PyEvent) : Bool :=
  decide (a.timestamp ≤ b.timestamp)

/-- event.py, Event.__gt__: not (self <= other). -/
def event_gt (a b : PyEvent) : Bool :=
  !(event_le a b)

/-- event.py, Event.__ge__: not (self < other). -/
def event_ge (a b : PyEvent) : Bool :=
  !(event_lt a b)

/-- driver.py, class Driver.  The location becomes an Option because
end_drive assigns the (possibly absent) destination to it. -/
structure Driver where
  id : String
  location : Option Location
  speed : Nat
  destination : Option Location
  rider : Option Rider
  is_idle : Bool
  timestamp : Nat
deriving DecidableEq, Repr

/-- Python round applied to the exact rational num/den: round half to even
(banker rounding), as the CPython round builtin does on exact ties. -/
def round_half_to_even (num den : Nat) : Nat :=
  let q := num / den
  let r := num % den
  if 2 * r < den then q
  else if den < 2 * r then q + 1
  else if q % 2 == 0 then q else q + 1

/-- driver.py, Driver.get_travel_time: round(manhattan_distance(location,
destination) / speed).  Accessing .row on a None location raises
AttributeError; dividing by speed 0 raises ZeroDivisionError. -/
def get_travel_time (d : Driver) (destination : Location) : Except PyErr Nat :=
  match d.location with
  | none => Except.error PyErr.attributeError
  | some loc =>
    if d.speed == 0 then Except.error PyErr.zeroDivisionError
    else Except.ok (round_half_to_even (manhattan_distance loc destination) d.speed)

/-- driver.py, Driver.start_drive: computes the travel time, then sets
is_idle to false and destination to the target; the location is not
changed.  No idleness precondition is checked. -/
def start_drive (d : Driver) (loc : Location) : Except PyErr (Nat × Driver) :=
  match get_travel_time d loc with
  | Except.error e => Except.error e
  | Except.ok time => Except.ok (time, { d with is_idle := false, destination := some loc })

/-- driver.py, Driver.end_drive: sets location to the current destination
(even when that destination is None) and is_idle to true; the destination
itself is not cleared here.  No precondition is checked. -/
def end_drive (d : Driver) : Driver :=
  { d with location := d.destination, is_idle := true }

/-- driver.py, Driver.start_ride: binds the rider, teleports the driver to
the rider origin, marks the rider satisfied, then start_drive toward the
rider destination.  The mutations before start_drive survive even when
start_drive raises, so the partially updated rider and driver are returned
alongside the error. -/
def start_ride (d : Driver) (r : Rider) : Except PyErr Nat × Rider × Driver :=
  let r2 := { r with status := RStatus.satisfied }
  let d2 := { d with rider := some r2, location := some r.origin }
  match start_drive d2 r.destination with
  | Except.error e => (Except.error e, r2, d2)
  | Except.ok (time, d3) => (Except.ok time, r2, d3)

/-- driver.py, Driver.end_ride: sets the bound rider status to satisfied
(AttributeError when no rider is bound), clears the binding, performs
end_drive, then clears the destination.  No rider location is touched. -/
def end_ride (d : Driver) : Except PyErr (Rider × Driver) :=
  match d.rider with
  | none => Except.error PyErr.attributeError
  | some r =>
    let r2 := { r with status := RStatus.satisfied }
    let d2 := end_drive { d with rider := none }
    Except.ok (r2, { d2 with destination := none })

/-- A driver on which get_travel_time cannot raise: it has a location and a
non-zero speed. -/
def good_driver (d : Driver) : Bool :=
  d.location.isSome && (d.speed != 0)

/-- Modelled from the spec: container.py (the PriorityQueue) is not under
src/.  The spec describes a generic ordered container with insertion,
extraction of the minimum, membership test and arbitrary element deletion,
holding waiting riders earliest created first.  It is represented as a list
kept sorted by the rider order of rider.py; add inserts the new rider
before the first strictly later one, so same-timestamp riders stay FIFO. -/
def pq_add : List Rider → Rider → List Rider
  | [], r => [r]
  | x :: xs, r => if rider_lt r x then r :: x :: xs else x :: pq_add xs r

/-- Modelled from the spec: PriorityQueue.is_empty. -/
def pq_is_empty (q : List Rider) : Bool :=
  q.isEmpty

/-- Modelled from the spec: PriorityQueue.remove extracts the minimum,
which is the head of the sorted list. -/
def pq_remove (q : List Rider) : Option Rider × List Rider :=
  (q.head?, q.tail)

/-- Modelled from the spec: PriorityQueue.__contains__, a membership test
using the element equality of rider.py. -/
def pq_contains (q : List Rider) (r : Rider) : Bool :=
  q.any (fun x => rider_eq x r)

/-- Modelled from the spec: PriorityQueue.delete removes the first element
equal to the argument; deleting an absent element is a no-op. -/
def pq_delete : List Rider → Rider → List Rider
  | [], _ => []
  | x :: xs, r => if rider_eq x r then xs else x :: pq_delete xs r

/-- dispatcher.py, class Dispatcher: a list of registered drivers and the
waiting queue of riders. -/
structure Dispatcher where
  driver_list : List Driver
  rider_queue : List Rider
deriving DecidableEq, Repr

/-- dispatcher.py, the loop inside request_driver: scan the drivers,
replacing the incumbent shortest_time driver by any driver that has a
strictly smaller travel time to the rider destination and is idle.  The
two nested ifs of the source are kept; i is the list position of the
current candidate and bi the position of the incumbent, recording which
list cell the returned Python object lives in. -/
def rd_loop (dest : Location) : List Driver → Driver → Nat → Nat → Except PyErr (Driver × Nat)
  | [], best, _, bi => Except.ok (best, bi)
  | d :: ds, best, i, bi =>
    match get_travel_time d dest with
    | Except.error e => Except.error e
    | Except.ok td =>
      match get_travel_time best dest with
      | Except.error e => Except.error e
      | Except.ok tb =>
        if td < tb then
          if d.is_idle then rd_loop dest ds d (i + 1) i
          else rd_loop dest ds best (i + 1) bi
        else rd_loop dest ds best (i + 1) bi

/-- dispatcher.py, Dispatcher.request_driver: when no driver is registered,
enqueue the rider and return None; otherwise run the scan starting with the
first registered driver as incumbent (regardless of its idleness) and
return the resulting driver, leaving the dispatcher unchanged.  The
returned pair carries the list index of the driver so that callers can
model the in-place mutation of the shared Python object. -/
def request_driver (disp : Dispatcher) (rider : Rider) :
    Except PyErr (Option (Driver × Nat) × Dispatcher) :=
  match disp.driver_list with
  | [] => Except.ok (none, { disp with rider_queue := pq_add disp.rider_queue rider })
  | d0 :: _ =>
    match rd_loop rider.destination disp.driver_list d0 0 0 with
    | Except.error e => Except.error e
    | Except.ok (best, j) => Except.ok (some (best, j), disp)

/-- dispatcher.py, Dispatcher.request_rider: when the queue is non-empty,
remove and return its minimum; otherwise append the driver to the list
(unconditionally) and return None. -/
def request_rider (disp : Dispatcher) (driver : Driver) : Option Rider × Dispatcher :=
  match disp.rider_queue with
  | r :: rest => (some r, { disp with rider_queue := rest })
  | [] => (none, { disp with driver_list := disp.driver_list ++ [driver] })

/-- dispatcher.py, Dispatcher.cancel_ride: when the queue contains a rider
equal to the argument, delete it and set the status of the argument rider
to cancelled; otherwise do nothing.  The possibly updated argument rider is
returned alongside the new dispatcher state. -/
def cancel_ride (disp : Dispatcher) (rider : Rider) : Rider × Dispatcher :=
  if pq_contains disp.rider_queue rider then
    ({ rider with status := RStatus.cancelled },
     { disp with rider_queue := pq_delete disp.rider_queue rider })
  else (rider, disp)

/-- event.py follow-up events, with the payload each subclass stores.  The
Cancellation driver field may be None, exactly as in RiderRequest.do. -/
inductive EvTag where
  | riderRequest (timestamp : Nat) (rider : Rider)
  | driverRequest (timestamp : Nat) (driver : Driver)
  | cancellation (timestamp : Nat) (rider : Rider) (driver : Option Driver)
  | pickup (timestamp : Nat) (rider : Rider) (driver : Driver)
  | dropoff (timestamp : Nat) (rider : Rider) (driver : Driver)
deriving DecidableEq, Repr

/-- event.py, RiderRequest.do: ask the dispatcher for a driver; when one is
returned, start_drive it toward the rider origin and emit a Pickup at
t + travel time; always emit a Cancellation at t + patience carrying the
(possibly absent, possibly just mutated) driver.  The driver object mutated
in place by start_drive is written back at its list position. -/
def riderRequest_do (t : Nat) (rider : Rider) (disp : Dispatcher) :
    Except PyErr (List EvTag × Dispatcher) :=
  match request_driver disp rider with
  | Except.error e => Except.error e
  | Except.ok (none, disp1) =>
    Except.ok ([EvTag.cancellation (t + rider.patience) rider none], disp1)
  | Except.ok (some (driver, j), disp1) =>
    match start_drive driver rider.origin with
    | Except.error e => Except.error e
    | Except.ok (tt, driver2) =>
      Except.ok ([EvTag.pickup (t + tt) rider driver2,
                  EvTag.cancellation (t + rider.patience) rider (some driver2)],
                 { disp1 with driver_list := disp1.driver_list.set j driver2 })

/-- event.py, Pickup.do.  When the rider is waiting: start_ride, then
construct the Dropoff — whose __init__ immediately performs
driver.end_ride() — then cancel_ride defensively, and return the single
Dropoff.  Otherwise the driver binding is cleared and the final statement
return events raises UnboundLocalError, because the local variable events
is only assigned in the waiting branch. -/
def pickup_do (t : Nat) (rider : Rider) (driver : Driver) (disp : Dispatcher) :
    Except PyErr (List EvTag) × Rider × Driver × Dispatcher :=
  if rider.status == RStatus.waiting then
    match start_ride driver rider with
    | (Except.error e, r2, d2) => (Except.error e, r2, d2, disp)
    | (Except.ok time, r2, d2) =>
      match end_ride d2 with
      | Except.error e => (Except.error e, r2, d2, disp)
      | Except.ok (r3, d3) =>
        let ev := EvTag.dropoff (t + time) r3 d3
        let (r4, disp2) := cancel_ride disp r3
        (Except.ok [ev], r4, d3, disp2)
  else
    (Except.error PyErr.unboundLocalError, rider, { driver with rider := none }, disp)

/-- event.py, Dropoff.do: after the monitor notifications it only builds
and returns the DriverRequest at the same timestamp; no driver or rider
state is touched here (end_ride already ran in Dropoff.__init__). -/
def dropoff_do (t : Nat) (_rider : Rider) (driver : Driver) : List EvTag :=
  [EvTag.driverRequest t driver]

/-- The waiting queue kept by the dispatcher is sorted by rider timestamp;
the head is the earliest created rider. -/
def pq_sorted (q : List Rider) : Prop :=
  List.Pairwise (fun a b => a.timestamp ≤ b.timestamp) q

/-- Sample dispatcher with nothing registered. -/
def emptyDisp : Dispatcher := ⟨[], []⟩

/-- Sample idle driver at the grid origin with speed 1. -/
def idleDriver : Driver := ⟨"d", some ⟨0, 0⟩, 1, none, none, true, 0⟩

/-- Sample dispatcher holding only idleDriver. -/
def dispWithIdle : Dispatcher := ⟨[idleDriver], []⟩

/-- Sample busy driver: not idle, mid-drive toward (7,7). -/
def nonIdleDriver : Driver := ⟨"n", some ⟨0, 0⟩, 1, some ⟨7, 7⟩, none, false, 0⟩

/-- Sample rider whose origin and destination differ a lot. -/
def riderFar : Rider := ⟨RStatus.waiting, "x", ⟨9, 9⟩, ⟨1, 1⟩, 5, 0⟩

/-- Sample idle driver sitting on the origin of riderOriginZero. -/
def driverNear : Driver := ⟨"b", some ⟨0, 0⟩, 1, none, none, true, 0⟩

/-- Sample idle driver sitting on the destination of riderOriginZero. -/
def driverFarIdle : Driver := ⟨"a", some ⟨0, 4⟩, 1, none, none, true, 1⟩

/-- Sample rider from (0,0) to (0,4). -/
def riderOriginZero : Rider := ⟨RStatus.waiting, "y", ⟨0, 0⟩, ⟨0, 4⟩, 5, 1⟩

/-- Sample rider whose status is already cancelled. -/
def cancelledRider : Rider := ⟨RStatus.cancelled, "c", ⟨0, 0⟩, ⟨1, 1⟩, 2, 0⟩

/-- Sample driver still carrying a stale binding to cancelledRider. -/
def staleDriver : Driver := ⟨"s", some ⟨0, 0⟩, 1, some ⟨0, 3⟩, some cancelledRider, false, 0⟩

/-- staleDriver after its stale rider binding is released. -/
def staleDriverReleased : Driver := ⟨"s", some ⟨0, 0⟩, 1, some ⟨0, 3⟩, none, false, 0⟩

/-- Sample waiting rider from (0,3) to (0,5) with patience 100. -/
def pickupRider : Rider := ⟨RStatus.waiting, "r4", ⟨0, 3⟩, ⟨0, 5⟩, 100, 0⟩

/-- pickupRider after being picked up. -/
def pickupRiderSat : Rider := ⟨RStatus.satisfied, "r4", ⟨0, 3⟩, ⟨0, 5⟩, 100, 0⟩

/-- Sample driver en route to the origin of pickupRider. -/
def enRouteDriver : Driver := ⟨"d4", some ⟨0, 0⟩, 1, some ⟨0, 3⟩, none, false, 0⟩

/-- enRouteDriver after Pickup processing: already idle at (0,5) with no
rider bound, because Dropoff.__init__ ran end_ride. -/
def doneDriver : Driver := ⟨"d4", some ⟨0, 5⟩, 1, none, none, true, 0⟩

/-- Sample dispatcher holding only enRouteDriver. -/
def pickupDisp : Dispatcher := ⟨[enRouteDriver], []⟩

/-- Sample waiting rider used for the queue witness. -/
def waitingRider : Rider := ⟨RStatus.waiting, "w", ⟨0, 0⟩, ⟨1, 1⟩, 9, 3⟩

/-- Sample dispatcher with one queued rider and no drivers. -/
def dispQueued : Dispatcher := ⟨[], [waitingRider]⟩

/-- Sample rider being transported, origin (0,0), destination (2,2). -/
def transportedRider : Rider := ⟨RStatus.waiting, "t", ⟨0, 0⟩, ⟨2, 2⟩, 5, 0⟩

/-- Sample driver transporting transportedRider toward (5,5). -/
def transportingDriver : Driver :=
  ⟨"td", some ⟨1, 1⟩, 1, some ⟨5, 5⟩, some transportedRider, false, 0⟩

/-- Sample driver with no destination set. -/
def noDestDriver : Driver := ⟨"nd", some ⟨2, 3⟩, 1, none, none, false, 0⟩

/-- noDestDriver after end_drive: the location silently became None. -/
def noDestArrived : Driver := ⟨"nd", none, 1, none, none, true, 0⟩

/-- Sample waiting rider with timestamp 7 and identifier A. -/
def twinA : Rider := ⟨RStatus.waiting, "A", ⟨0, 0⟩, ⟨1, 1⟩, 5, 7⟩

/-- Sample waiting rider with timestamp 7 but different identifier, origin,
destination and patience. -/
def twinB : Rider := ⟨RStatus.waiting, "B", ⟨2, 2⟩, ⟨3, 3⟩, 9, 7⟩

/-- On a driver with a location and non-zero speed, get_travel_time cannot
raise. -/
lemma good_tt (d : Driver) (dest : Location) (h : good_driver d = true) :
    ∃ n, get_travel_time d dest = Except.ok n := by
  unfold good_driver at h
  rw [Bool.and_eq_true] at h
  obtain ⟨h1, h2⟩ := h
  cases hl : d.location with
  | none => rw [hl] at h1; simp at h1
  | some loc =>
    have hs : (d.speed == 0) = false := by
      cases hs0 : d.speed == 0 with
      | false => rfl
      | true => rw [bne, hs0] at h2; simp at h2
    refine ⟨round_half_to_even (manhattan_distance loc dest) d.speed, ?_⟩
    unfold get_travel_time
    rw [hl, hs]
    simp

/-- Invariant of the request_driver scan: given that every driver of the
full list is good, the scan never raises, and it returns a valid list
position holding a driver that is either the very first registered driver
(position 0) or idle, whose travel time to the scan key is at most the
travel time of the incumbent it started from. -/
lemma rd_loop_inv (dest : Location) (full : List Driver)
    (hgood : ∀ d ∈ full, good_driver d = true) :
    ∀ (sub : List Driver) (i bi : Nat) (best : Driver) (kb : Nat),
      full.drop i = sub →
      full[bi]? = some best →
      (bi = 0 ∨ best.is_idle = true) →
      get_travel_time best dest = Except.ok kb →
      ∃ bd j kd, rd_loop dest sub best i bi = Except.ok (bd, j) ∧
        full[j]? = some bd ∧ (j = 0 ∨ bd.is_idle = true) ∧
        get_travel_time bd dest = Except.ok kd ∧ kd ≤ kb := by
  intro sub
  induction sub with
  | nil =>
    intro i bi best kb _ hbi hidle hkb
    exact ⟨best, bi, kb, by simp [rd_loop], hbi, hidle, hkb, le_refl kb⟩
  | cons d ds ih =>
    intro i bi best kb hdrop hbi hidle hkb
    have hdi : full[i]? = some d := by
      have h0 : (full.drop i)[0]? = some d := by rw [hdrop]; simp
      rw [List.getElem?_drop] at h0
      simpa using h0
    have hdmem : d ∈ full := List.getElem?_mem hdi
    have hds : full.drop (i + 1) = ds := by
      have h1 := List.drop_drop 1 i full
      rw [hdrop] at h1
      simpa [Nat.add_comm] using h1.symm
    obtain ⟨td, htd⟩ := good_tt d dest (hgood d hdmem)
    by_cases hlt : td < kb
    · cases hidle2 : d.is_idle with
      | true =>
        obtain ⟨bd, j, kd, hrl, hj, hji, hkd, hle⟩ :=
          ih (i + 1) i d td hds hdi (Or.inr hidle2) htd
        refine ⟨bd, j, kd, ?_, hj, hji, hkd, le_trans hle (le_of_lt hlt)⟩
        simp only [rd_loop, htd, hkb]
        simp [hlt, hidle2, hrl]
      | false =>
        obtain ⟨bd, j, kd, hrl, hj, hji, hkd, hle⟩ :=
          ih (i + 1) bi best kb hds hbi hidle hkb
        refine ⟨bd, j, kd, ?_, hj, hji, hkd, hle⟩
        simp only [rd_loop, htd, hkb]
        simp [hlt, hidle2, hrl]
    · obtain ⟨bd, j, kd, hrl, hj, hji, hkd, hle⟩ :=
        ih (i + 1) bi best kb hds hbi hidle hkb
      refine ⟨bd, j, kd, ?_, hj, hji, hkd, hle⟩
      simp only [rd_loop, htd, hkb]
      simp [hlt, hrl]

/-- C1: the claim requires the event order to be lexicographic on
(timestamp, creation sequence), with two distinct same-timestamp events
ordered FIFO rather than compared equal.  The source Event stores no
creation sequence and all six comparisons read only the timestamp: two
distinct events both stamped 5 compare equal and are not strictly ordered
in either direction, so no FIFO tie-break exists.  This theorem evaluates
the embedded comparison methods at that failing input. -/
theorem event_comparisons_timestamp_only_at_five :
    event_eq ⟨5⟩ ⟨5⟩ = true ∧ event_ne ⟨5⟩ ⟨5⟩ = false ∧
    event_lt ⟨5⟩ ⟨5⟩ = false ∧ event_gt ⟨5⟩ ⟨5⟩ = false ∧
    event_le ⟨5⟩ ⟨5⟩ = true ∧ event_ge ⟨5⟩ ⟨5⟩ = true := by
  decide

/-- C3: processing a Pickup for a rider that is not waiting clears the
stale driver binding and leaves the rider untouched as claimed, but then
the method raises UnboundLocalError (the local variable events was only
assigned in the waiting branch) instead of returning an empty event list.
Evaluated at the failing input: Pickup at time 10 for a cancelled rider. -/
theorem pickup_nonwaiting_unbound_local :
    pickup_do 10 cancelledRider staleDriver emptyDisp =
      (Except.error PyErr.unboundLocalError, cancelledRider, staleDriverReleased, emptyDisp) := by
  rfl

/-- C4: the claim requires driver.end_ride() to happen as the effect of the
Dropoff transition, with the driver untouched between the Pickup and the
Dropoff processing.  In the source, Dropoff.__init__ performs end_ride at
construction time, inside Pickup.do: after the Pickup of a waiting rider
the driver stored in the returned Dropoff event is already idle at the ride
destination with no rider bound, and Dropoff.do itself only emits the
DriverRequest at its own timestamp without touching any state. -/
theorem dropoff_end_ride_at_construction :
    pickup_do 3 pickupRider enRouteDriver pickupDisp =
      (Except.ok [EvTag.dropoff 5 pickupRiderSat doneDriver],
       pickupRiderSat, doneDriver, pickupDisp) ∧
    doneDriver.rider = none ∧ doneDriver.is_idle = true ∧
    dropoff_do 5 pickupRiderSat doneDriver = [EvTag.driverRequest 5 doneDriver] := by
  exact ⟨rfl, rfl, rfl, rfl⟩

/-- C5: the claim requires serialize to produce the text "row,col" and
deserialize to invert it.  In the source, Location.__str__ has an empty
body and returns None, and deserialize_location raises TypeError at its
very first statement Location() (the constructor needs row and column), so
the round trip fails already at serialization of Location(4, 2). -/
theorem location_round_trip_broken :
    location_str ⟨4, 2⟩ = none ∧
    deserialize_location "4,2" = Except.error PyErr.typeError :=
  ⟨rfl, rfl⟩

/-- C2 counterexample: with a single registered non-idle driver the claim
demands that the rider be enqueued and none returned, but request_driver
returns that busy driver and leaves the queue empty; and with two idle
drivers the scan is keyed by travel time to the rider destination, so the
driver sitting on the destination is returned instead of the driver
sitting on the origin (travel time 0 to the origin) the claim requires. -/
theorem request_driver_claim_counterexample :
    (nonIdleDriver.is_idle = false ∧
      request_driver (Dispatcher.mk [nonIdleDriver] []) riderFar =
        Except.ok (some (nonIdleDriver, 0), Dispatcher.mk [nonIdleDriver] [])) ∧
    (driverNear.is_idle = true ∧
      get_travel_time driverNear riderOriginZero.origin = Except.ok 0 ∧
      get_travel_time driverFarIdle riderOriginZero.origin = Except.ok 4 ∧
      request_driver (Dispatcher.mk [driverNear, driverFarIdle] []) riderOriginZero =
        Except.ok (some (driverFarIdle, 1), Dispatcher.mk [driverNear, driverFarIdle] [])) := by
  exact ⟨⟨rfl, rfl⟩, rfl, rfl, rfl, rfl⟩

/-- C7 counterexample: the claim says a driver is registered only when not
already registered, hence at most once.  The source appends the driver
unconditionally whenever the waiting queue is empty: two request_rider
calls by the same driver leave it in the registered list twice. -/
theorem request_rider_double_registration :
    request_rider (request_rider emptyDisp idleDriver).2 idleDriver =
      (none, Dispatcher.mk [idleDriver, idleDriver] []) := by
  rfl

/-- C8 counterexample: the claim says end_ride moves the rider own location
to the driver destination (5,5).  The source rider has no own-location
field at all and end_ride only flips its status to satisfied: after the
call the rider fields are its unchanged origin (0,0) and destination
(2,2), neither of which is the driver destination (5,5). -/
theorem end_ride_rider_location_counterexample :
    end_ride transportingDriver =
      Except.ok (⟨RStatus.satisfied, "t", ⟨0, 0⟩, ⟨2, 2⟩, 5, 0⟩,
                 ⟨"td", some ⟨5, 5⟩, 1, none, none, true, 0⟩) ∧
    (⟨0, 0⟩ : Location) ≠ ⟨5, 5⟩ ∧ (⟨2, 2⟩ : Location) ≠ ⟨5, 5⟩ := by
  refine ⟨rfl, by decide, by decide⟩

/-- C9 counterexample: the claim says a violated precondition raises a
PreconditionError.  No such check exists: end_drive on a driver with no
destination completes normally and silently sets the location to None, and
start_ride on a non-idle driver (staleDriver) completes normally and
returns a travel time. -/
theorem no_precondition_error_counterexample :
    end_drive noDestDriver = noDestArrived ∧
    (start_ride staleDriver transportedRider).1 = Except.ok 4 := by
  exact ⟨rfl, rfl⟩

/-- C2 as amended: when no driver is registered request_driver enqueues the
rider and returns none; when at least one driver is registered it never
enqueues and returns (dispatcher unchanged) a registered driver that is
either the first registered one — even if busy — or an idle driver, with
travel time keyed to the rider destination no larger than that of the first
driver. -/
theorem request_driver_amended (disp : Dispatcher) (rider : Rider)
    (h : ∀ d ∈ disp.driver_list, good_driver d = true) :
    (disp.driver_list = [] →
      request_driver disp rider =
        Except.ok (none, { disp with rider_queue := pq_add disp.rider_queue rider })) ∧
    (∀ d0 rest, disp.driver_list = d0 :: rest →
      ∃ d j kd k0, request_driver disp rider = Except.ok (some (d, j), disp) ∧
        disp.driver_list[j]? = some d ∧ (j = 0 ∨ d.is_idle = true) ∧
        get_travel_time d rider.destination = Except.ok kd ∧
        get_travel_time d0 rider.destination = Except.ok k0 ∧ kd ≤ k0) := by
  constructor
  · intro hnil
    simp only [request_driver, hnil]
  · intro d0 rest hcons
    have h0 : good_driver d0 = true := h d0 (by rw [hcons]; exact List.mem_cons_self d0 rest)
    obtain ⟨k0, hk0⟩ := good_tt d0 rider.destination h0
    obtain ⟨bd, j, kd, hrl, hj, hji, hkd, hle⟩ :=
      rd_loop_inv rider.destination disp.driver_list h disp.driver_list 0 0 d0 k0
        (List.drop_zero _) (by rw [hcons]; simp) (Or.inl rfl) hk0
    refine ⟨bd, j, kd, k0, ?_, hj, hji, hkd, hk0, hle⟩
    rw [hcons] at hrl
    simp only [request_driver, hcons, hrl]

/-- C6: RiderRequest.do always returns a Cancellation scheduled at
t + patience; when the dispatcher hands back a driver, that driver starts
driving toward the rider origin (destination set to the origin, no longer
idle) and a Pickup at t + travelTime(origin) is returned in front of the
Cancellation; when no driver is registered only the Cancellation, carrying
no driver, is returned. -/
theorem rider_request_events (t : Nat) (rider : Rider) (disp : Dispatcher)
    (h : ∀ d ∈ disp.driver_list, good_driver d = true) :
    (disp.driver_list = [] →
      riderRequest_do t rider disp =
        Except.ok ([EvTag.cancellation (t + rider.patience) rider none],
                   { disp with rider_queue := pq_add disp.rider_queue rider })) ∧
    (disp.driver_list ≠ [] →
      ∃ d j tt, request_driver disp rider = Except.ok (some (d, j), disp) ∧
        get_travel_time d rider.origin = Except.ok tt ∧
        riderRequest_do t rider disp =
          Except.ok ([EvTag.pickup (t + tt) rider
                        { d with is_idle := false, destination := some rider.origin },
                      EvTag.cancellation (t + rider.patience) rider
                        (some { d with is_idle := false, destination := some rider.origin })],
                     { disp with driver_list := List.set disp.driver_list j { d with is_idle := false, destination := some rider.origin } })) := by
  constructor
  · intro hnil
    have hreq : request_driver disp rider =
        Except.ok (none, { disp with rider_queue := pq_add disp.rider_queue rider }) := by
      simp only [request_driver, hnil]
    simp only [riderRequest_do, hreq]
  · intro hne
    obtain ⟨d0, rest, hcons⟩ := List.exists_cons_of_ne_nil hne
    have h0 : good_driver d0 = true := h d0 (by rw [hcons]; exact List.mem_cons_self d0 rest)
    obtain ⟨k0, hk0⟩ := good_tt d0 rider.destination h0
    obtain ⟨bd, j, kd, hrl, hj, hji, hkd, hle⟩ :=
      rd_loop_inv rider.destination disp.driver_list h disp.driver_list 0 0 d0 k0
        (List.drop_zero _) (by rw [hcons]; simp) (Or.inl rfl) hk0
    have hreq : request_driver disp rider = Except.ok (some (bd, j), disp) := by
      rw [hcons] at hrl
      simp only [request_driver, hcons, hrl]
    have hbdmem : bd ∈ disp.driver_list := List.getElem?_mem hj
    obtain ⟨tt, htt⟩ := good_tt bd rider.origin (h bd hbdmem)
    have hsd : start_drive bd rider.origin =
        Except.ok (tt, { bd with is_idle := false, destination := some rider.origin }) := by
      simp only [start_drive, htt]
    refine ⟨bd, j, tt, hreq, htt, ?_⟩
    simp only [riderRequest_do, hreq, hsd]

/-- C7 as amended: when the waiting queue is non-empty request_rider
dequeues and returns the earliest-waiting rider (the queue minimum) without
touching the driver list; when the queue is empty it appends the driver
unconditionally — even when it is already registered — so repeated calls
with an empty queue register the same driver once per call. -/
theorem request_rider_amended (disp : Dispatcher) (driver : Driver)
    (hs : pq_sorted disp.rider_queue) :
    (∀ r rest, disp.rider_queue = r :: rest →
      request_rider disp driver = (some r, { disp with rider_queue := rest }) ∧
      ∀ x ∈ disp.rider_queue, r.timestamp ≤ x.timestamp) ∧
    (disp.rider_queue = [] →
      request_rider disp driver =
        (none, { disp with driver_list := disp.driver_list ++ [driver] })) := by
  constructor
  · intro r rest hq
    constructor
    · simp only [request_rider, hq]
    · intro x hx
      rw [hq] at hx
      unfold pq_sorted at hs
      rw [hq, List.pairwise_cons] at hs
      rcases List.mem_cons.mp hx with hx1 | hx2
      · subst hx1; exact le_refl _
      · exact hs.1 x hx2
  · intro hq
    simp only [request_rider, hq]

/-- C8 as amended: end_ride marks the bound rider satisfied (the rider has
no own-location field; its origin and destination stay exactly as they
were), clears the driver binding, performs end_drive — arriving at the
destination and becoming idle — and finally clears the destination. -/
theorem end_ride_amended (d : Driver) (r : Rider) (h : d.rider = some r) :
    end_ride d = Except.ok ({ r with status := RStatus.satisfied },
      { d with rider := none, location := d.destination, is_idle := true, destination := none }) ∧
    Rider.origin { r with status := RStatus.satisfied } = r.origin ∧
    Rider.destination { r with status := RStatus.satisfied } = r.destination := by
  refine ⟨?_, rfl, rfl⟩
  simp only [end_ride, h, end_drive]

/-- C9 as amended: the driver transitions perform no precondition checks
and never raise: end_drive completes normally on any driver, becoming idle
and moving to the (possibly absent) destination, and start_ride completes
normally on any driver with non-zero speed — idle or not — rebinding the
rider, teleporting to its origin and starting the drive toward its
destination. -/
theorem transitions_unchecked (d : Driver) (r : Rider) (h : d.speed ≠ 0) :
    ((end_drive d).is_idle = true ∧ (end_drive d).location = d.destination) ∧
    ∃ tt, start_ride d r =
      (Except.ok tt, { r with status := RStatus.satisfied },
       { d with rider := some { r with status := RStatus.satisfied },
                location := some r.origin, is_idle := false,
                destination := some r.destination }) := by
  refine ⟨⟨rfl, rfl⟩, ?_⟩
  have hs : (d.speed == 0) = false := beq_eq_false_iff_ne.mpr h
  refine ⟨round_half_to_even (manhattan_distance r.origin r.destination) d.speed, ?_⟩
  simp [start_ride, start_drive, get_travel_time, hs]

/-- C10: rider equality and both ordering comparisons read only the
timestamp, so two riders sharing a request timestamp — whatever their
identifiers, origins, destinations or patience — compare equal, are not
ordered, and are indistinguishable to the waiting queue membership test
and deletion. -/
theorem rider_identity_timestamp_only (r1 r2 : Rider) (h : r1.timestamp = r2.timestamp) :
    rider_eq r1 r2 = true ∧ rider_lt r1 r2 = false ∧ rider_ge r1 r2 = false ∧
    ∀ q : List Rider, pq_contains q r1 = pq_contains q r2 ∧
      pq_delete q r1 = pq_delete q r2 := by
  have hx : ∀ x, rider_eq x r1 = rider_eq x r2 := fun x => by simp [rider_eq, h]
  refine ⟨by simp [rider_eq, h], by simp [rider_lt, h], by simp [rider_ge, h], ?_⟩
  intro q
  constructor
  · simp only [pq_contains, hx]
  · induction q with
    | nil => rfl
    | cons x xs ih =>
      simp only [pq_delete, hx x]
      cases hxe : rider_eq x r2 with
      | true => simp
      | false => simp [ih]

/-- Witness for request_driver_amended at a dispatcher holding one good
idle driver and a concrete rider. -/
theorem request_driver_amended_witness :
    (∀ d ∈ dispWithIdle.driver_list, good_driver d = true) ∧
    ((dispWithIdle.driver_list = [] →
      request_driver dispWithIdle pickupRider =
        Except.ok (none, { dispWithIdle with rider_queue := pq_add dispWithIdle.rider_queue pickupRider })) ∧
    (∀ d0 rest, dispWithIdle.driver_list = d0 :: rest →
      ∃ d j kd k0, request_driver dispWithIdle pickupRider = Except.ok (some (d, j), dispWithIdle) ∧
        dispWithIdle.driver_list[j]? = some d ∧ (j = 0 ∨ d.is_idle = true) ∧
        get_travel_time d pickupRider.destination = Except.ok kd ∧
        get_travel_time d0 pickupRider.destination = Except.ok k0 ∧ kd ≤ k0)) :=
  ⟨by decide, request_driver_amended dispWithIdle pickupRider (by decide)⟩

/-- Witness for rider_request_events at time 0, a concrete rider and a
dispatcher holding one good idle driver. -/
theorem rider_request_events_witness :
    (∀ d ∈ dispWithIdle.driver_list, good_driver d = true) ∧
    ((dispWithIdle.driver_list = [] →
      riderRequest_do 0 pickupRider dispWithIdle =
        Except.ok ([EvTag.cancellation (0 + pickupRider.patience) pickupRider none],
                   { dispWithIdle with rider_queue := pq_add dispWithIdle.rider_queue pickupRider })) ∧
    (dispWithIdle.driver_list ≠ [] →
      ∃ d j tt, request_driver dispWithIdle pickupRider = Except.ok (some (d, j), dispWithIdle) ∧
        get_travel_time d pickupRider.origin = Except.ok tt ∧
        riderRequest_do 0 pickupRider dispWithIdle =
          Except.ok ([EvTag.pickup (0 + tt) pickupRider
                        { d with is_idle := false, destination := some pickupRider.origin },
                      EvTag.cancellation (0 + pickupRider.patience) pickupRider
                        (some { d with is_idle := false, destination := some pickupRider.origin })],
                     { dispWithIdle with driver_list := List.set dispWithIdle.driver_list j { d with is_idle := false, destination := some pickupRider.origin } }))) :=
  ⟨by decide, rider_request_events 0 pickupRider dispWithIdle (by decide)⟩

/-- Witness for request_rider_amended at a dispatcher whose queue holds one
waiting rider. -/
theorem request_rider_amended_witness :
    pq_sorted dispQueued.rider_queue ∧
    ((∀ r rest, dispQueued.rider_queue = r :: rest →
      request_rider dispQueued idleDriver = (some r, { dispQueued with rider_queue := rest }) ∧
      ∀ x ∈ dispQueued.rider_queue, r.timestamp ≤ x.timestamp) ∧
    (dispQueued.rider_queue = [] →
      request_rider dispQueued idleDriver =
        (none, { dispQueued with driver_list := dispQueued.driver_list ++ [idleDriver] }))) :=
  ⟨by unfold pq_sorted; decide,
   request_rider_amended dispQueued idleDriver (by unfold pq_sorted; decide)⟩

/-- Witness for end_ride_amended at the transporting driver with its bound
rider. -/
theorem end_ride_amended_witness :
    transportingDriver.rider = some transportedRider ∧
    (end_ride transportingDriver = Except.ok ({ transportedRider with status := RStatus.satisfied },
      { transportingDriver with rider := none, location := transportingDriver.destination, is_idle := true, destination := none }) ∧
    Rider.origin { transportedRider with status := RStatus.satisfied } = transportedRider.origin ∧
    Rider.destination { transportedRider with status := RStatus.satisfied } = transportedRider.destination) :=
  ⟨rfl, end_ride_amended transportingDriver transportedRider rfl⟩

/-- Witness for transitions_unchecked at the destination-less driver (its
precondition for end_drive is violated) and a concrete rider. -/
theorem transitions_unchecked_witness :
    noDestDriver.speed ≠ 0 ∧
    (((end_drive noDestDriver).is_idle = true ∧
      (end_drive noDestDriver).location = noDestDriver.destination) ∧
    ∃ tt, start_ride noDestDriver transportedRider =
      (Except.ok tt, { transportedRider with status := RStatus.satisfied },
       { noDestDriver with
          rider := some { transportedRider with status := RStatus.satisfied },
          location := some transportedRider.origin, is_idle := false,
          destination := some transportedRider.destination })) :=
  ⟨by decide, transitions_unchecked noDestDriver transportedRider (by decide)⟩

/-- Witness for rider_identity_timestamp_only at two riders that differ in
identifier, origin, destination and patience but share timestamp 7. -/
theorem rider_identity_timestamp_only_witness :
    twinA ≠ twinB ∧ twinA.timestamp = twinB.timestamp ∧
    (rider_eq twinA twinB = true ∧ rider_lt twinA twinB = false ∧ rider_ge twinA twinB = false ∧
     ∀ q : List Rider, pq_contains q twinA = pq_contains q twinB ∧
       pq_delete q twinA = pq_delete q twinB) :=
  ⟨by decide, rfl, rider_identity_timestamp_only twinA twinB rfl⟩
